import Mathlib

/-!
Verification of the brain-tumor analysis pipeline's knowledge-graph engine
and orchestrator, shallowly embedded from the repository sources
(`agents/knowledge_base.py`, `agents/crew.py`).

The Neo4j graph is modelled as explicit lists of typed nodes and typed
edges; edges reference their endpoints by the node's unique `name` key
(names are unique in the seeded ontology, and Cypher joins are modelled
as filters over the node lists exactly as `MATCH` resolves label plus
property patterns).  Cypher `ORDER BY` over the priority `CASE` rank is
modelled as a stable sort.  Fallible driver calls are modelled with
`Except`.
-/

/-! ### Data model: node and edge records (knowledge_base.py, seeded labels) -/

/-- A `TumorType` node: `name`, `description`, `prevalence`. -/
structure TumorTypeNode where
  name : String
  description : String
  prevalence : String
  deriving DecidableEq

/-- A `Symptom` node: `name`, `severity`. -/
structure SymptomNode where
  name : String
  severity : String
  deriving DecidableEq

/-- A `Cause` node: `name`, `type`. -/
structure CauseNode where
  name : String
  type : String
  deriving DecidableEq

/-- A `Treatment` node: `name`, `description`, `effectiveness`. -/
structure TreatmentNode where
  name : String
  description : String
  effectiveness : String
  deriving DecidableEq

/-- A `Diagnostic` node: `name`, `description`, `accuracy`. -/
structure DiagnosticNode where
  name : String
  description : String
  accuracy : String
  deriving DecidableEq

/-- A `CAUSES_SYMPTOM` edge (TumorType to Symptom) with its `frequency`
attribute; endpoints are referenced by unique node name. -/
structure CausesSymptomEdge where
  tumor : String
  symptom : String
  frequency : String
  deriving DecidableEq

/-- An `INCREASES_RISK_OF` edge (Cause to TumorType) with its
`risk_factor` attribute. -/
structure IncreasesRiskEdge where
  cause : String
  tumor : String
  risk_factor : String
  deriving DecidableEq

/-- A `TREATED_WITH` edge (TumorType to Treatment) with its `priority`
attribute. -/
structure TreatedWithEdge where
  tumor : String
  treatment : String
  priority : String
  deriving DecidableEq

/-- A `DIAGNOSES` edge (Diagnostic to TumorType) with its `accuracy`
attribute. -/
structure DiagnosesEdge where
  diagnostic : String
  tumor : String
  accuracy : String
  deriving DecidableEq

/-- The whole graph store state: node lists and edge lists, kept in
creation order (Neo4j traversal order is modelled as list order). -/
structure Graph where
  tumorTypes : List TumorTypeNode
  symptoms : List SymptomNode
  causes : List CauseNode
  treatments : List TreatmentNode
  diagnostics : List DiagnosticNode
  causesSymptom : List CausesSymptomEdge
  increasesRisk : List IncreasesRiskEdge
  treatedWith : List TreatedWithEdge
  diagnoses : List DiagnosesEdge
  deriving DecidableEq

/-- The empty graph store. -/
def Graph.empty : Graph := ⟨[], [], [], [], [], [], [], [], []⟩

/-! ### Schema seeder (knowledge_base.py, initialize_knowledge_base)

Each `session.run` statement of the Python method is one graph
transformation; the method is their composition in source order. -/

/-- `MATCH (n) DETACH DELETE n`: removes every node and relationship,
regardless of the prior state. -/
def clearAll (_ : Graph) : Graph := Graph.empty

/-- The tumor-type creation statement (three `CREATE` clauses). -/
def createTumorTypes (g : Graph) : Graph :=
  { g with tumorTypes := g.tumorTypes ++
      [⟨"Glioma", "Tumors that arise from glial cells in the brain",
        "Most common primary brain tumor in adults"⟩,
       ⟨"Meningioma", "Tumors that develop from the meninges",
        "Most common benign brain tumor"⟩,
       ⟨"Pituitary Adenoma", "Tumors of the pituitary gland",
        "Common, usually benign"⟩] }

/-- The symptom creation statement (seven `CREATE` clauses). -/
def createSymptomNodes (g : Graph) : Graph :=
  { g with symptoms := g.symptoms ++
      [⟨"Persistent Headaches", "High"⟩,
       ⟨"Seizures", "High"⟩,
       ⟨"Vision Problems", "Medium"⟩,
       ⟨"Nausea and Vomiting", "Medium"⟩,
       ⟨"Muscle Weakness", "High"⟩,
       ⟨"Cognitive Changes", "Medium"⟩,
       ⟨"Balance Problems", "Medium"⟩] }

/-- The cause creation statement (five `CREATE` clauses). -/
def createCauseNodes (g : Graph) : Graph :=
  { g with causes := g.causes ++
      [⟨"Previous Radiation Exposure", "Environmental"⟩,
       ⟨"Genetic Mutations", "Genetic"⟩,
       ⟨"Family History", "Genetic"⟩,
       ⟨"Age (Risk increases with age)", "Demographic"⟩,
       ⟨"Weakened Immune System", "Medical"⟩] }

/-- The treatment creation statement (four `CREATE` clauses). -/
def createTreatmentNodes (g : Graph) : Graph :=
  { g with treatments := g.treatments ++
      [⟨"Surgical Resection", "Removal of tumor through surgery",
        "High for accessible tumors"⟩,
       ⟨"Radiation Therapy", "Use of high-energy radiation to kill tumor cells",
        "High when combined with other treatments"⟩,
       ⟨"Chemotherapy", "Drug-based treatment to kill cancer cells",
        "Variable depending on tumor type"⟩,
       ⟨"Targeted Therapy", "Drugs targeting specific molecular changes in tumor cells",
        "Growing effectiveness for specific tumor types"⟩] }

/-- The diagnostic creation statement (three `CREATE` clauses). -/
def createDiagnosticNodes (g : Graph) : Graph :=
  { g with diagnostics := g.diagnostics ++
      [⟨"MRI Scan", "Magnetic Resonance Imaging for detailed brain images",
        "Very High"⟩,
       ⟨"CT Scan", "Computed Tomography for brain imaging", "High"⟩,
       ⟨"Biopsy", "Tissue sample analysis for definitive diagnosis",
        "Gold Standard"⟩] }

/-- `MATCH (t:TumorType {name: n})` resolved against the store. -/
def matchTumorType (g : Graph) (n : String) : List TumorTypeNode :=
  g.tumorTypes.filter (fun t => t.name == n)

/-- `MATCH (s:Symptom {name: n})` resolved against the store. -/
def matchSymptom (g : Graph) (n : String) : List SymptomNode :=
  g.symptoms.filter (fun s => s.name == n)

/-- `MATCH (c:Cause {name: n})` resolved against the store. -/
def matchCause (g : Graph) (n : String) : List CauseNode :=
  g.causes.filter (fun c => c.name == n)

/-- `MATCH (t:Treatment {name: n})` resolved against the store. -/
def matchTreatment (g : Graph) (n : String) : List TreatmentNode :=
  g.treatments.filter (fun t => t.name == n)

/-- `MATCH (d:Diagnostic {name: n})` resolved against the store. -/
def matchDiagnostic (g : Graph) (n : String) : List DiagnosticNode :=
  g.diagnostics.filter (fun d => d.name == n)

/-- The symptom-relationship statement: five `MATCH` clauses produce a
row product, and each row creates four `CAUSES_SYMPTOM` edges with the
literal frequencies of the source. -/
def createSymptomEdges (g : Graph) : Graph :=
  let rows := (matchTumorType g "Glioma").flatMap (fun gl =>
    (matchSymptom g "Persistent Headaches").flatMap (fun hd =>
    (matchSymptom g "Seizures").flatMap (fun sz =>
    (matchSymptom g "Cognitive Changes").flatMap (fun cg =>
    (matchSymptom g "Muscle Weakness").map (fun wk => (gl, hd, sz, cg, wk))))))
  { g with causesSymptom := g.causesSymptom ++ rows.flatMap (fun row =>
      [⟨row.1.name, row.2.1.name, "Common"⟩,
       ⟨row.1.name, row.2.2.1.name, "Common"⟩,
       ⟨row.1.name, row.2.2.2.1.name, "Frequent"⟩,
       ⟨row.1.name, row.2.2.2.2.name, "Common"⟩]) }

/-- The cause-relationship statement: four `MATCH` clauses, three
`INCREASES_RISK_OF` edges per row (direction Cause to TumorType). -/
def createCauseEdges (g : Graph) : Graph :=
  let rows := (matchTumorType g "Glioma").flatMap (fun gl =>
    (matchCause g "Previous Radiation Exposure").flatMap (fun rad =>
    (matchCause g "Genetic Mutations").flatMap (fun gen =>
    (matchCause g "Family History").map (fun fam => (gl, rad, gen, fam)))))
  { g with increasesRisk := g.increasesRisk ++ rows.flatMap (fun row =>
      [⟨row.2.1.name, row.1.name, "Moderate"⟩,
       ⟨row.2.2.1.name, row.1.name, "High"⟩,
       ⟨row.2.2.2.name, row.1.name, "Moderate"⟩]) }

/-- The treatment-relationship statement: five `MATCH` clauses, four
`TREATED_WITH` edges per row with the literal priorities of the source
(Primary, Adjuvant, Adjuvant, Emerging), in creation order. -/
def createTreatmentEdges (g : Graph) : Graph :=
  let rows := (matchTumorType g "Glioma").flatMap (fun gl =>
    (matchTreatment g "Surgical Resection").flatMap (fun su =>
    (matchTreatment g "Radiation Therapy").flatMap (fun ra =>
    (matchTreatment g "Chemotherapy").flatMap (fun ch =>
    (matchTreatment g "Targeted Therapy").map (fun ta => (gl, su, ra, ch, ta))))))
  { g with treatedWith := g.treatedWith ++ rows.flatMap (fun row =>
      [⟨row.1.name, row.2.1.name, "Primary"⟩,
       ⟨row.1.name, row.2.2.1.name, "Adjuvant"⟩,
       ⟨row.1.name, row.2.2.2.1.name, "Adjuvant"⟩,
       ⟨row.1.name, row.2.2.2.2.name, "Emerging"⟩]) }

/-- The diagnostic-relationship statement: four `MATCH` clauses, three
`DIAGNOSES` edges per row (direction Diagnostic to TumorType). -/
def createDiagnosticEdges (g : Graph) : Graph :=
  let rows := (matchTumorType g "Glioma").flatMap (fun gl =>
    (matchDiagnostic g "MRI Scan").flatMap (fun mri =>
    (matchDiagnostic g "CT Scan").flatMap (fun ct =>
    (matchDiagnostic g "Biopsy").map (fun bi => (gl, mri, ct, bi)))))
  { g with diagnoses := g.diagnoses ++ rows.flatMap (fun row =>
      [⟨row.2.1.name, row.1.name, "Primary method"⟩,
       ⟨row.2.2.1.name, row.1.name, "Secondary method"⟩,
       ⟨row.2.2.2.name, row.1.name, "Confirmatory"⟩]) }

/-- `MedicalKnowledgeBase.initialize_knowledge_base`: the composition of
the ten `session.run` statements in source order, starting with the
unconditional wipe. -/
def init_knowledge_base (g : Graph) : Graph :=
  createDiagnosticEdges (createTreatmentEdges (createCauseEdges
    (createSymptomEdges (createDiagnosticNodes (createTreatmentNodes
      (createCauseNodes (createSymptomNodes (createTumorTypes (clearAll g)))))))))

/-- The fixed end state produced by seeding (any start state reaches it). -/
def seededGraph : Graph := init_knowledge_base Graph.empty

/-! ### Query engine rows (knowledge_base.py, query_tumor_information) -/

/-- One row of the symptoms query: `s.name, s.severity, r.frequency`. -/
structure SymptomRow where
  symptom : String
  severity : String
  frequency : String
  deriving DecidableEq

/-- One row of the causes query: `c.name, c.type, r.risk_factor`. -/
structure CauseRow where
  cause : String
  type : String
  risk : String
  deriving DecidableEq

/-- One row of the treatments query:
`tr.name, tr.description, tr.effectiveness, r.priority`. -/
structure TreatmentRow where
  treatment : String
  description : String
  effectiveness : String
  priority : String
  deriving DecidableEq

/-- One row of the diagnostics query:
`d.name, d.description, d.accuracy`. -/
structure DiagRow where
  method : String
  description : String
  accuracy : String
  deriving DecidableEq

/-- One row of `get_treatment_recommendations`:
`t.name, tr.name, tr.description, r.priority`. -/
structure TreatmentRecRow where
  tumor_type : String
  treatment : String
  description : String
  priority : String
  deriving DecidableEq

/-- The symptoms query:
`MATCH (t:TumorType)-[r:CAUSES_SYMPTOM]->(s:Symptom)`, projecting
symptom name, severity and edge frequency, in traversal (edge-list)
order. -/
def symptomsQuery (g : Graph) : List SymptomRow :=
  g.causesSymptom.flatMap (fun e =>
    (g.tumorTypes.filter (fun t => t.name == e.tumor)).flatMap (fun _ =>
      (g.symptoms.filter (fun s => s.name == e.symptom)).map (fun s =>
        ⟨s.name, s.severity, e.frequency⟩)))

/-- The causes query:
`MATCH (c:Cause)-[r:INCREASES_RISK_OF]->(t:TumorType)`, projecting cause
name, category and edge risk factor. -/
def causesQuery (g : Graph) : List CauseRow :=
  g.increasesRisk.flatMap (fun e =>
    (g.causes.filter (fun c => c.name == e.cause)).flatMap (fun c =>
      (g.tumorTypes.filter (fun t => t.name == e.tumor)).map (fun _ =>
        ⟨c.name, c.type, e.risk_factor⟩)))

/-- The unordered join underlying the treatments query:
`MATCH (t:TumorType)-[r:TREATED_WITH]->(tr:Treatment)`, in traversal
(edge-creation) order, before `ORDER BY` is applied. -/
def treatmentsJoin (g : Graph) : List TreatmentRow :=
  g.treatedWith.flatMap (fun e =>
    (g.tumorTypes.filter (fun t => t.name == e.tumor)).flatMap (fun _ =>
      (g.treatments.filter (fun tr => tr.name == e.treatment)).map (fun tr =>
        ⟨tr.name, tr.description, tr.effectiveness, e.priority⟩)))

/-- The `CASE r.priority WHEN 'Primary' THEN 1 WHEN 'Adjuvant' THEN 2
ELSE 3 END` rank of the treatments query's `ORDER BY`. -/
def priorityRank (p : String) : Nat :=
  if p == "Primary" then 1 else if p == "Adjuvant" then 2 else 3

/-- The rank of a treatments row under the `ORDER BY` `CASE` expression. -/
def rowRank (r : TreatmentRow) : Nat := priorityRank r.priority

/-- Stable insertion for the `ORDER BY` sort: a row is placed before the
first row of strictly greater rank, so equal-rank rows keep their
traversal order. -/
def insertRow (r : TreatmentRow) : List TreatmentRow → List TreatmentRow
  | [] => [r]
  | x :: xs => if rowRank r ≤ rowRank x then r :: x :: xs else x :: insertRow r xs

/-- The `ORDER BY` of the treatments query, modelled as a stable sort by
the priority rank. -/
def sortRows : List TreatmentRow → List TreatmentRow
  | [] => []
  | x :: xs => insertRow x (sortRows xs)

/-- The treatments query as issued by the source: the join, ordered by
the priority rank. -/
def treatmentsQuery (g : Graph) : List TreatmentRow :=
  sortRows (treatmentsJoin g)

/-- The diagnostics query:
`MATCH (d:Diagnostic)-[r:DIAGNOSES]->(t:TumorType)`, projecting method
name, description and node accuracy. -/
def diagnosticsQuery (g : Graph) : List DiagRow :=
  g.diagnoses.flatMap (fun e =>
    (g.diagnostics.filter (fun d => d.name == e.diagnostic)).flatMap (fun d =>
      (g.tumorTypes.filter (fun t => t.name == e.tumor)).map (fun _ =>
        ⟨d.name, d.description, d.accuracy⟩)))

/-- `get_symptoms_by_severity`: exact-match filter on the severity
property, projecting names. -/
def get_symptoms_by_severity (g : Graph) (severity : String) : List String :=
  (g.symptoms.filter (fun s => s.severity == severity)).map (fun s => s.name)

/-- `get_treatment_recommendations`: the unordered full join across all
tumor types. -/
def get_treatment_recommendations (g : Graph) : List TreatmentRecRow :=
  g.treatedWith.flatMap (fun e =>
    (g.tumorTypes.filter (fun t => t.name == e.tumor)).flatMap (fun t =>
      (g.treatments.filter (fun tr => tr.name == e.treatment)).map (fun tr =>
        ⟨t.name, tr.name, tr.description, e.priority⟩)))

/-- The dictionary returned by `query_tumor_information`: the normal
branch carries status, message and recommendations; the tumor branch
carries status, the four result lists and recommendations. -/
inductive FactsBundle where
  | normal (status : String) (message : String) (recommendations : List String)
  | tumor (status : String) (symptoms : List SymptomRow) (causes : List CauseRow)
      (treatments : List TreatmentRow) (diagnostics : List DiagRow)
      (recommendations : List String)
  deriving DecidableEq

/-- The `status` entry of a facts bundle. -/
def FactsBundle.status : FactsBundle → String
  | .normal s _ _ => s
  | .tumor s _ _ _ _ _ => s

/-- The `recommendations` entry of a facts bundle. -/
def FactsBundle.recommendations : FactsBundle → List String
  | .normal _ _ r => r
  | .tumor _ _ _ _ _ r => r

/-- `MedicalKnowledgeBase.query_tumor_information` over a graph state.
The second component instruments which read queries the call issues
against the store (the source opens a session and runs them only in the
tumor branch). -/
def query_tumor_information (tumor_detected : Bool) (g : Graph) :
    FactsBundle × List String :=
  if tumor_detected = false then
    (FactsBundle.normal "Normal" "No tumor detected. Brain scan appears normal."
      ["Continue regular health checkups",
       "Maintain healthy lifestyle",
       "Monitor for any new symptoms"], [])
  else
    (FactsBundle.tumor "Tumor Detected" (symptomsQuery g) (causesQuery g)
      (treatmentsQuery g) (diagnosticsQuery g)
      ["Immediate consultation with a neurologist or neurosurgeon",
       "Additional diagnostic tests (biopsy) for tumor characterization",
       "Discussion of treatment options based on tumor type and location",
       "Consider second opinion from specialized cancer center"],
     ["symptoms", "causes", "treatments", "diagnostics"])

/-! ### Fallible store model (per-query driver outcomes)

In the source each `session.run` may raise; `query_tumor_information`
has no handler, so the first failure aborts the whole call.  The error
value records which query failed. -/

/-- A failed read query: which query it was, and the driver message. -/
structure QueryError where
  query : String
  message : String
  deriving DecidableEq

/-- Outcomes of the four read queries as delivered by the driver. -/
structure StoreEnv where
  symptomsQ : Except QueryError (List SymptomRow)
  causesQ : Except QueryError (List CauseRow)
  treatmentsQ : Except QueryError (List TreatmentRow)
  diagnosticsQ : Except QueryError (List DiagRow)

/-- `query_tumor_information` with the source's exception semantics: the
four reads run in source order and the first failure propagates,
producing no bundle. -/
def query_tumor_information_env (tumor_detected : Bool) (env : StoreEnv) :
    Except QueryError FactsBundle :=
  if tumor_detected = false then
    Except.ok (FactsBundle.normal "Normal"
      "No tumor detected. Brain scan appears normal."
      ["Continue regular health checkups",
       "Maintain healthy lifestyle",
       "Monitor for any new symptoms"])
  else
    match env.symptomsQ with
    | Except.error e => Except.error e
    | Except.ok symptoms =>
      match env.causesQ with
      | Except.error e => Except.error e
      | Except.ok causes =>
        match env.treatmentsQ with
        | Except.error e => Except.error e
        | Except.ok treatments =>
          match env.diagnosticsQ with
          | Except.error e => Except.error e
          | Except.ok diagnostics =>
            Except.ok (FactsBundle.tumor "Tumor Detected" symptoms causes
              treatments diagnostics
              ["Immediate consultation with a neurologist or neurosurgeon",
               "Additional diagnostic tests (biopsy) for tumor characterization",
               "Discussion of treatment options based on tumor type and location",
               "Consider second opinion from specialized cancer center"])

/-- The store outcomes a healthy graph state delivers: every read
succeeds with the rows of the corresponding query. -/
def envOfGraph (g : Graph) : StoreEnv :=
  ⟨Except.ok (symptomsQuery g), Except.ok (causesQuery g),
   Except.ok (treatmentsQuery g), Except.ok (diagnosticsQuery g)⟩

/-! ### Connection bootstrap (knowledge_base.py, `MedicalKnowledgeBase.__init__`)

The constructor calls `verify_connectivity` up to five times, sleeping
two seconds after every failed attempt, breaking on the first success,
and raising the last attempt's error when all five fail.  `verify`
gives the outcome of each attempt (indexed from 0); the result's `ok`
payload counts the attempts made, and the second component counts the
seconds slept. -/
def initRetry (verify : Nat → Except String Unit) :
    Nat → Nat → Except String Nat × Nat
  | _, 0 => (Except.ok 0, 0)
  | i, 1 =>
    match verify i with
    | Except.ok _ => (Except.ok (i + 1), 0)
    | Except.error e => (Except.error e, 2)
  | i, r + 2 =>
    match verify i with
    | Except.ok _ => (Except.ok (i + 1), 0)
    | Except.error _ =>
      ((initRetry verify (i + 1) (r + 1)).1, (initRetry verify (i + 1) (r + 1)).2 + 2)

/-- The constructor's retry loop: five attempts starting at index 0. -/
def connect_with_retry (verify : Nat → Except String Unit) :
    Except String Nat × Nat :=
  initRetry verify 0 5

/-! ### Module-level singleton (knowledge_base.py, `get_knowledge_base`) -/

/-- The observable identity of a constructed `MedicalKnowledgeBase`:
the connection arguments it was built from. -/
structure KBRef where
  uri : String
  username : String
  password : String
  deriving DecidableEq

/-- `get_knowledge_base` with the module-global `_kb_instance` made
explicit: the returned triple is the instance handed to the caller, the
new global state, and whether a new instance was constructed on this
call. -/
def get_knowledge_base (state : Option KBRef)
    (uri username password : String) : KBRef × Option KBRef × Bool :=
  match state with
  | some kb => (kb, some kb, false)
  | none => (⟨uri, username, password⟩, some ⟨uri, username, password⟩, true)

/-! ### Grad-CAM output path (crew.py, `agent_classify`)

The source computes `image_path.replace('.', '_gradcam.')`.  Paths are
modelled as character lists; Python `str.replace` with a one-character
needle replaces every occurrence left to right without rescanning the
replacement. -/

/-- Python `str.replace('.', repl)` on a character list. -/
def str_replace_dot (repl : List Char) : List Char → List Char
  | [] => []
  | c :: cs =>
    if c = '.' then repl ++ str_replace_dot repl cs
    else c :: str_replace_dot repl cs

/-- The derived Grad-CAM output path of `agent_classify`:
`image_path.replace('.', '_gradcam.')`. -/
def gradcam_path (p : List Char) : List Char :=
  str_replace_dot ("_gradcam.".toList) p

/-- Split a path at its last dot: `some (before, ext)` with the input
equal to `before ++ '.' :: ext` and no dot in `ext`. -/
def lastDotSplit : List Char → Option (List Char × List Char)
  | [] => none
  | c :: cs =>
    match lastDotSplit cs with
    | some (b, a) => some (c :: b, a)
    | none => if c = '.' then some ([], cs) else none

/-- Modelled from the spec's words, for comparison only: insert
`_gradcam` immediately before the file extension (the part after the
last dot) and nowhere else, leaving the rest of the path unchanged. -/
def gradcam_path_spec (p : List Char) : List Char :=
  match lastDotSplit p with
  | some (before, ext) => before ++ "_gradcam".toList ++ '.' :: ext
  | none => p

/-! ### Pipeline orchestrator (crew.py, `BrainTumorCrew.analyze`)

`analyze` runs `agent_classify` (classifier `predict`, then the Grad-CAM
renderer `save_gradcam`), then `agent_explain` (knowledge-base lookup,
then one LLM call), then `agent_report` (a second LLM call).  There is
no handler anywhere in the class, so a stage's exception propagates to
the caller unchanged.  The error type distinguishes a raw collaborator
exception from one tagged with a stage name, so that the absence of
stage tagging is expressible; the source only ever propagates the raw
form. -/

/-- A pipeline failure: either a collaborator's exception propagated
unchanged, or an exception wrapped with the name of the failing stage
(the source never produces the wrapped form). -/
inductive PipeErr where
  | raw (msg : String)
  | staged (stage : String) (msg : String)
  deriving DecidableEq

/-- The classifier outcome fields that drive later control flow
(`result['class']`, `result['tumor_detected']`). -/
structure ClassRes where
  predictedClass : String
  tumor_detected : Bool
  deriving DecidableEq

/-- Outcomes of the external collaborators for one `analyze` run. -/
structure CrewEnv where
  predict : Except PipeErr ClassRes
  save_gradcam : Except PipeErr Unit
  kb_query : Bool → Except PipeErr FactsBundle
  llm_explain : Except PipeErr String
  llm_report : Except PipeErr String

/-- `agent_classify`: run the classifier, then the Grad-CAM renderer;
either failure propagates unchanged. -/
def agent_classify (env : CrewEnv) : Except PipeErr ClassRes :=
  match env.predict with
  | Except.error e => Except.error e
  | Except.ok c =>
    match env.save_gradcam with
    | Except.error e => Except.error e
    | Except.ok _ => Except.ok c

/-- `analyze`: the three agents in sequence.  The second component
counts the narrative-generator (LLM) invocations made during the run
(one in `agent_explain`, one in `agent_report`). -/
def analyze (env : CrewEnv) : Except PipeErr String × Nat :=
  match agent_classify env with
  | Except.error e => (Except.error e, 0)
  | Except.ok c =>
    match env.kb_query c.tumor_detected with
    | Except.error e => (Except.error e, 0)
    | Except.ok _ =>
      match env.llm_explain with
      | Except.error e => (Except.error e, 1)
      | Except.ok _ =>
        match env.llm_report with
        | Except.error e => (Except.error e, 2)
        | Except.ok report => (Except.ok report, 2)

/-- Whether a pipeline outcome failed with a stage-tagged error. -/
def errStaged : Except PipeErr String → Bool
  | Except.error (PipeErr.staged _ _) => true
  | _ => false

/-! ### Helper lemmas for the stable `ORDER BY` sort -/

/-- Membership in `insertRow` is membership in the original list or the
inserted row. -/
theorem mem_insertRow (r y : TreatmentRow) (l : List TreatmentRow) :
    y ∈ insertRow r l ↔ y = r ∨ y ∈ l := by
  induction l with
  | nil => simp [insertRow]
  | cons x xs ih =>
    by_cases h : rowRank r ≤ rowRank x
    · simp only [insertRow, if_pos h, List.mem_cons]
    · simp only [insertRow, if_neg h, List.mem_cons, ih]
      tauto

/-- `insertRow` preserves sortedness by rank. -/
theorem pairwise_insertRow (r : TreatmentRow) (l : List TreatmentRow)
    (hl : List.Pairwise (fun a b => rowRank a ≤ rowRank b) l) :
    List.Pairwise (fun a b => rowRank a ≤ rowRank b) (insertRow r l) := by
  induction l with
  | nil => simp [insertRow]
  | cons x xs ih =>
    rcases List.pairwise_cons.mp hl with ⟨hx, hxs⟩
    by_cases h : rowRank r ≤ rowRank x
    · simp only [insertRow, if_pos h]
      refine List.pairwise_cons.mpr ⟨?_, hl⟩
      intro y hy
      rcases List.mem_cons.mp hy with rfl | hmem
      · exact h
      · exact le_trans h (hx y hmem)
    · simp only [insertRow, if_neg h]
      refine List.pairwise_cons.mpr ⟨?_, ih hxs⟩
      intro y hy
      rcases (mem_insertRow r y xs).mp hy with rfl | hmem
      · omega
      · exact hx y hmem

/-- The sort's output is sorted ascending by the priority rank. -/
theorem pairwise_sortRows (l : List TreatmentRow) :
    List.Pairwise (fun a b => rowRank a ≤ rowRank b) (sortRows l) := by
  induction l with
  | nil => simp [sortRows]
  | cons x xs ih => exact pairwise_insertRow x (sortRows xs) ih

/-- Stability of `insertRow`: restricted to any one rank class, inserting
a row of that rank prepends it and changes nothing else. -/
theorem filter_insertRow (k : Nat) (r : TreatmentRow) (l : List TreatmentRow) :
    (insertRow r l).filter (fun x => rowRank x == k)
      = if rowRank r == k then r :: l.filter (fun x => rowRank x == k)
        else l.filter (fun x => rowRank x == k) := by
  induction l with
  | nil => simp only [insertRow, List.filter_cons, List.filter_nil]
  | cons x xs ih =>
    by_cases h : rowRank r ≤ rowRank x
    · simp only [insertRow, if_pos h, List.filter_cons]
    · simp only [insertRow, if_neg h, List.filter_cons, ih]
      by_cases hr : rowRank r == k
      · have hx : ¬ rowRank x == k := by
          simp only [beq_iff_eq] at hr ⊢
          omega
        simp [hr, hx]
      · simp [hr]

/-- Stability of the sort: each rank class of the output is exactly the
rank class of the input, in the same order. -/
theorem filter_sortRows (k : Nat) (l : List TreatmentRow) :
    (sortRows l).filter (fun x => rowRank x == k)
      = l.filter (fun x => rowRank x == k) := by
  induction l with
  | nil => rfl
  | cons x xs ih =>
    simp only [sortRows, filter_insertRow, ih, List.filter_cons]

/-! ### Claim theorems -/

/-- The seeded graph with its `TREATED_WITH` edges created in the
opposite order, exercising a different creation order of the same
ontology. -/
def reversedSeededGraph : Graph :=
  { seededGraph with treatedWith := seededGraph.treatedWith.reverse }

/-- Claim C1: for every graph state (hence any creation order of
`TREATED_WITH` edges), the treatments query of `lookup(true)` returns
the join sorted ascending by the rank Primary=1, Adjuvant=2, other=3
(so every Primary row precedes every Adjuvant row, which precede all
others), and ties keep their stable traversal order: each rank class of
the output equals that of the unsorted join.  On the seeded ontology the
rows come out Primary, Adjuvant, Adjuvant, Emerging, and reversing the
edge creation order still yields Primary first. -/
theorem treatments_query_sorted_stable :
    ∀ g : Graph,
      List.Pairwise (fun a b => rowRank a ≤ rowRank b) (treatmentsQuery g) ∧
      (∀ k : Nat, (treatmentsQuery g).filter (fun r => rowRank r == k)
          = (treatmentsJoin g).filter (fun r => rowRank r == k)) ∧
      (treatmentsQuery seededGraph).map (fun r => r.priority)
          = ["Primary", "Adjuvant", "Adjuvant", "Emerging"] ∧
      (treatmentsQuery seededGraph).map (fun r => r.treatment)
          = ["Surgical Resection", "Radiation Therapy", "Chemotherapy",
             "Targeted Therapy"] ∧
      (treatmentsQuery reversedSeededGraph).map (fun r => r.priority)
          = ["Primary", "Adjuvant", "Adjuvant", "Emerging"] ∧
      (treatmentsQuery reversedSeededGraph).map (fun r => r.treatment)
          = ["Surgical Resection", "Chemotherapy", "Radiation Therapy",
             "Targeted Therapy"] := by
  intro g
  refine ⟨pairwise_sortRows (treatmentsJoin g), fun k => filter_sortRows k (treatmentsJoin g),
    ?_, ?_, ?_, ?_⟩ <;> decide

/-- Claim C2: seeding is idempotent by destructive reset.  For every
prior graph state the seed reaches the same fixed end state, running it
twice equals running it once, and all query results after seeding are
those of the fixed end state. -/
theorem seed_idempotent_reset :
    ∀ g : Graph,
      init_knowledge_base g = seededGraph ∧
      init_knowledge_base (init_knowledge_base g) = init_knowledge_base g ∧
      query_tumor_information true (init_knowledge_base g)
        = query_tumor_information true seededGraph ∧
      query_tumor_information false (init_knowledge_base g)
        = query_tumor_information false seededGraph ∧
      get_treatment_recommendations (init_knowledge_base g)
        = get_treatment_recommendations seededGraph ∧
      get_symptoms_by_severity (init_knowledge_base g) "High"
        = get_symptoms_by_severity seededGraph "High" :=
  fun _ => ⟨rfl, rfl, rfl, rfl, rfl, rfl⟩

/-- Claim C4: for every graph state, `lookup(false)` issues no graph
query (the instrumented query list is empty) and returns the fixed
bundle with status `Normal`, the fixed advisory message, and exactly 3
wellness recommendations, independent of the graph state. -/
theorem normal_short_circuit :
    ∀ g : Graph,
      query_tumor_information false g
        = (FactsBundle.normal "Normal"
            "No tumor detected. Brain scan appears normal."
            ["Continue regular health checkups",
             "Maintain healthy lifestyle",
             "Monitor for any new symptoms"], []) ∧
      FactsBundle.status (query_tumor_information false g).1 = "Normal" ∧
      (FactsBundle.recommendations (query_tumor_information false g).1).length = 3 :=
  fun _ => ⟨rfl, rfl, rfl⟩

/-- Claim C5: for every graph state, `lookup(true)` returns a bundle
with status `Tumor Detected`, the four query result lists, and exactly 4
escalation recommendations; on the seeded ontology all four lists are
non-empty, and on the empty (unseeded) store all four lists are empty
while the fallible-store run still succeeds with no error. -/
theorem tumor_bundle_shape :
    ∀ g : Graph,
      (query_tumor_information true g).1
        = FactsBundle.tumor "Tumor Detected" (symptomsQuery g) (causesQuery g)
            (treatmentsQuery g) (diagnosticsQuery g)
            ["Immediate consultation with a neurologist or neurosurgeon",
             "Additional diagnostic tests (biopsy) for tumor characterization",
             "Discussion of treatment options based on tumor type and location",
             "Consider second opinion from specialized cancer center"] ∧
      FactsBundle.status (query_tumor_information true g).1 = "Tumor Detected" ∧
      (FactsBundle.recommendations (query_tumor_information true g).1).length = 4 ∧
      (symptomsQuery seededGraph).length = 4 ∧
      (causesQuery seededGraph).length = 3 ∧
      (treatmentsQuery seededGraph).length = 4 ∧
      (diagnosticsQuery seededGraph).length = 3 ∧
      symptomsQuery Graph.empty = [] ∧
      causesQuery Graph.empty = [] ∧
      treatmentsQuery Graph.empty = [] ∧
      diagnosticsQuery Graph.empty = [] ∧
      query_tumor_information_env true (envOfGraph Graph.empty)
        = Except.ok (FactsBundle.tumor "Tumor Detected" [] [] [] []
            ["Immediate consultation with a neurologist or neurosurgeon",
             "Additional diagnostic tests (biopsy) for tumor characterization",
             "Discussion of treatment options based on tumor type and location",
             "Consider second opinion from specialized cancer center"]) := by
  intro g
  refine ⟨rfl, rfl, rfl, ?_, ?_, ?_, ?_, rfl, rfl, rfl, rfl, rfl⟩ <;> decide

/-- Claim C9, counterexample: a fresh seed creates three `TumorType`
nodes (Glioma, Meningioma, Pituitary Adenoma), not exactly one. -/
theorem seeded_tumor_type_count_ne_one :
    (init_knowledge_base Graph.empty).tumorTypes.length = 3 ∧
    ¬ (init_knowledge_base Graph.empty).tumorTypes.length = 1 := by
  decide

/-- Claim C9, amended: after a fresh seed the graph contains exactly
three `TumorType` nodes, but only Glioma carries `TREATED_WITH` edges,
so `get_treatment_recommendations` joins over a single tumor type: its
four rows all carry tumor_type Glioma. -/
theorem seeded_single_treated_tumor_type :
    seededGraph.tumorTypes.length = 3 ∧
    (seededGraph.tumorTypes.map (fun t => t.name))
      = ["Glioma", "Meningioma", "Pituitary Adenoma"] ∧
    (get_treatment_recommendations seededGraph).length = 4 ∧
    ((get_treatment_recommendations seededGraph).map (fun r => r.tumor_type)).all
      (fun n => n == "Glioma") = true ∧
    (seededGraph.treatedWith.map (fun e => e.tumor)).all
      (fun n => n == "Glioma") = true := by
  decide

/-- Claim C3: the constructor makes at most 5 verification attempts with
a 2-second sleep after each failure.  If the first success is attempt
k+1 (0-based index k < 5), it returns after exactly k+1 attempts having
slept 2k seconds; if all 5 attempts fail, it raises the 5th attempt's
error (after 10 seconds of sleeps) and makes no further attempts. -/
theorem connect_retry_bound :
    ∀ verify : Nat → Except String Unit,
      (∀ k : Nat, k < 5 →
        (∀ j : Nat, j < k → ∃ e : String, verify j = Except.error e) →
        verify k = Except.ok () →
        connect_with_retry verify = (Except.ok (k + 1), 2 * k)) ∧
      ((∀ j : Nat, j < 4 → ∃ e : String, verify j = Except.error e) →
        ∀ e : String, verify 4 = Except.error e →
        connect_with_retry verify = (Except.error e, 10)) := by
  intro verify
  constructor
  · intro k hk hprev hok
    interval_cases k
    · simp [connect_with_retry, initRetry, hok]
    · obtain ⟨e0, h0⟩ := hprev 0 (by norm_num)
      simp [connect_with_retry, initRetry, h0, hok]
    · obtain ⟨e0, h0⟩ := hprev 0 (by norm_num)
      obtain ⟨e1, h1⟩ := hprev 1 (by norm_num)
      simp [connect_with_retry, initRetry, h0, h1, hok]
    · obtain ⟨e0, h0⟩ := hprev 0 (by norm_num)
      obtain ⟨e1, h1⟩ := hprev 1 (by norm_num)
      obtain ⟨e2, h2⟩ := hprev 2 (by norm_num)
      simp [connect_with_retry, initRetry, h0, h1, h2, hok]
    · obtain ⟨e0, h0⟩ := hprev 0 (by norm_num)
      obtain ⟨e1, h1⟩ := hprev 1 (by norm_num)
      obtain ⟨e2, h2⟩ := hprev 2 (by norm_num)
      obtain ⟨e3, h3⟩ := hprev 3 (by norm_num)
      simp [connect_with_retry, initRetry, h0, h1, h2, h3, hok]
  · intro hprev e he
    obtain ⟨e0, h0⟩ := hprev 0 (by norm_num)
    obtain ⟨e1, h1⟩ := hprev 1 (by norm_num)
    obtain ⟨e2, h2⟩ := hprev 2 (by norm_num)
    obtain ⟨e3, h3⟩ := hprev 3 (by norm_num)
    simp [connect_with_retry, initRetry, h0, h1, h2, h3, he]

/-- A store whose first four verification attempts fail and whose fifth
succeeds. -/
def vfOkAt4 : Nat → Except String Unit :=
  fun i => if i < 4 then Except.error "down" else Except.ok ()

/-- A store whose verification always fails. -/
def vfAlwaysDown : Nat → Except String Unit :=
  fun _ => Except.error "down"

/-- Witness for claim C3: succeeding on the 5th attempt connects after
exactly 5 attempts (8 seconds slept); always failing raises the last
error after 5 attempts and 10 seconds slept. -/
theorem connect_retry_bound_witness :
    connect_with_retry vfOkAt4 = (Except.ok 5, 8) ∧
    connect_with_retry vfAlwaysDown = (Except.error "down", 10) := by
  constructor
  · have h := (connect_retry_bound vfOkAt4).1 4 (by norm_num)
      (fun j hj => ⟨"down", by interval_cases j <;> rfl⟩) rfl
    simpa using h
  · exact (connect_retry_bound vfAlwaysDown).2
      (fun j hj => ⟨"down", rfl⟩) "down" rfl

/-- Claim C6: if any one of the four read queries inside `lookup(true)`
fails while the queries before it succeed, the whole call fails with
exactly that query's error — no partial bundle is produced and the error
carries the failed query's identity unchanged. -/
theorem query_failure_atomic :
    ∀ env : StoreEnv,
      (∀ e, env.symptomsQ = Except.error e →
        query_tumor_information_env true env = Except.error e) ∧
      (∀ e s, env.symptomsQ = Except.ok s → env.causesQ = Except.error e →
        query_tumor_information_env true env = Except.error e) ∧
      (∀ e s c, env.symptomsQ = Except.ok s → env.causesQ = Except.ok c →
        env.treatmentsQ = Except.error e →
        query_tumor_information_env true env = Except.error e) ∧
      (∀ e s c t, env.symptomsQ = Except.ok s → env.causesQ = Except.ok c →
        env.treatmentsQ = Except.ok t → env.diagnosticsQ = Except.error e →
        query_tumor_information_env true env = Except.error e) := by
  intro env
  refine ⟨?_, ?_, ?_, ?_⟩ <;> intros <;>
    simp [query_tumor_information_env, *]

/-- A store delivery where only the causes query fails. -/
def causesFailEnv : StoreEnv :=
  ⟨Except.ok [], Except.error ⟨"causes", "service unavailable"⟩,
   Except.ok [], Except.ok []⟩

/-- Witness for claim C6: with the causes query failing and the other
three succeeding, `lookup(true)` surfaces exactly the causes query's
error. -/
theorem query_failure_atomic_witness :
    query_tumor_information_env true causesFailEnv
      = Except.error ⟨"causes", "service unavailable"⟩ :=
  (query_failure_atomic causesFailEnv).2.1 ⟨"causes", "service unavailable"⟩ [] rfl rfl

/-- A dot-free character list is unchanged by the replacement. -/
theorem str_replace_dot_no_dot (repl : List Char) :
    ∀ l : List Char, '.' ∉ l → str_replace_dot repl l = l := by
  intro l hl
  induction l with
  | nil => rfl
  | cons c cs ih =>
    have hc : ¬ c = '.' := fun h => hl (h ▸ List.mem_cons_self c cs)
    have hcs : '.' ∉ cs := fun h => hl (List.mem_cons_of_mem c h)
    simp [str_replace_dot, hc, ih hcs]

/-- Claim C7, counterexample: on the input path `a.b.png` the derived
Grad-CAM path is `a_gradcam.b_gradcam.png` — the suffix is inserted at
every dot — whereas inserting only before the file extension would give
`a.b_gradcam.png`. -/
theorem gradcam_suffix_not_extension_only :
    gradcam_path ("a.b.png".toList) = "a_gradcam.b_gradcam.png".toList ∧
    gradcam_path_spec ("a.b.png".toList) = "a.b_gradcam.png".toList ∧
    ¬ gradcam_path ("a.b.png".toList) = gradcam_path_spec ("a.b.png".toList) := by
  refine ⟨?_, ?_, ?_⟩ <;> decide

/-- Claim C7, amended: the Grad-CAM output path replaces every dot of
the input path with `_gradcam.`; when the input contains exactly one dot
(the extension separator) this coincides with inserting `_gradcam`
before the extension and leaving the rest unchanged. -/
theorem gradcam_path_single_dot :
    ∀ a b : List Char, '.' ∉ a → '.' ∉ b →
      gradcam_path (a ++ '.' :: b) = a ++ ("_gradcam".toList ++ '.' :: b) := by
  intro a b ha hb
  induction a with
  | nil =>
    simp only [List.nil_append, gradcam_path, str_replace_dot, if_pos rfl,
      str_replace_dot_no_dot _ b hb]
    rfl
  | cons c a ih =>
    have hc : ¬ c = '.' := fun h => ha (h ▸ List.mem_cons_self c a)
    have ha2 : '.' ∉ a := fun h => ha (List.mem_cons_of_mem c h)
    simp only [List.cons_append, gradcam_path, str_replace_dot, if_neg hc]
    simpa [gradcam_path] using ih ha2

/-- Witness for claim C7 (amended): `scan.png` maps to
`scan_gradcam.png`. -/
theorem gradcam_path_single_dot_witness :
    gradcam_path ("scan".toList ++ '.' :: "png".toList)
      = "scan_gradcam.png".toList := by
  rw [gradcam_path_single_dot ("scan".toList) ("png".toList) (by decide) (by decide)]
  decide

/-- A run environment where classification succeeds and the Grad-CAM
renderer raises. -/
def renderFailEnv : CrewEnv :=
  { predict := Except.ok ⟨"Tumor", true⟩,
    save_gradcam := Except.error (PipeErr.raw "gradcam failed"),
    kb_query := fun _ => Except.ok (FactsBundle.normal "" "" []),
    llm_explain := Except.ok "",
    llm_report := Except.ok "" }

/-- Claim C8, counterexample: when the renderer fails, `analyze`
surfaces the renderer's raw exception unchanged — it is not wrapped with
a stage name (no `StageError` exists in the source) — although the
narrative generator is indeed never invoked. -/
theorem render_failure_not_stage_tagged :
    analyze renderFailEnv = (Except.error (PipeErr.raw "gradcam failed"), 0) ∧
    errStaged (analyze renderFailEnv).1 = false := by
  refine ⟨?_, ?_⟩ <;> rfl

/-- Claim C8, amended: if the Grad-CAM renderer stage fails during a
run, the run terminates with exactly the renderer's own error propagated
unchanged, and the narrative generator (LLM) is never invoked — no later
stage executes. -/
theorem render_failure_halts :
    ∀ (env : CrewEnv) (c : ClassRes) (e : PipeErr),
      env.predict = Except.ok c → env.save_gradcam = Except.error e →
      analyze env = (Except.error e, 0) := by
  intro env c e hp hr
  simp [analyze, agent_classify, hp, hr]

/-- A run environment where the renderer raises a different error. -/
def renderBoomEnv : CrewEnv :=
  { renderFailEnv with save_gradcam := Except.error (PipeErr.raw "boom") }

/-- Witness for claim C8 (amended): a concrete renderer failure aborts
the run with that error and zero narrative-generator calls. -/
theorem render_failure_halts_witness :
    analyze renderBoomEnv = (Except.error (PipeErr.raw "boom"), 0) :=
  render_failure_halts renderBoomEnv ⟨"Tumor", true⟩ (PipeErr.raw "boom") rfl rfl

/-- Claim C10: once `get_knowledge_base` has returned an instance (the
module global is set), every later call returns that same first
instance, ignores its uri/username/password arguments, and constructs
nothing new. -/
theorem kb_singleton_ignores_args :
    ∀ (kb : KBRef) (u1 p1 w1 u2 p2 w2 : String),
      get_knowledge_base (some kb) u2 p2 w2 = (kb, some kb, false) ∧
      (get_knowledge_base (get_knowledge_base none u1 p1 w1).2.1 u2 p2 w2).1
        = (get_knowledge_base none u1 p1 w1).1 ∧
      (get_knowledge_base (get_knowledge_base none u1 p1 w1).2.1 u2 p2 w2).2.1
        = (get_knowledge_base none u1 p1 w1).2.1 ∧
      (get_knowledge_base (get_knowledge_base none u1 p1 w1).2.1 u2 p2 w2).2.2
        = false :=
  fun _ _ _ _ _ _ _ => ⟨rfl, rfl, rfl, rfl⟩
